import Mathlib

/-!
Verification of the lead-generation pipeline in `src/app.py`.

The Python program is shallowly embedded: pure helper functions become Lean
functions on `String` / `List Char`; every external call (search API, website
fetch, email verification, language model) is represented by its response,
passed in as an explicit argument (`Except Unit _` where the Python code can
see a raised transport/parse exception, a plain value where it cannot).
The per-candidate loop of the "Generate Enhanced Leads" handler becomes a
fold over an explicit state (collected leads, seen domains).
-/

namespace LeadGen

/-! ## Basic string machinery

Models of the Python string operations used by `app.py`: substring test
(`in`), left-to-right non-overlapping removal of a literal pattern
(`str.replace(pat, "")`), digit parsing (`int` on a `\d+` match).
-/

/-- `containsSub pat s` is Python's `pat in s` on the character lists. -/
def containsSub (pat : List Char) : List Char → Bool
  | [] => pat.isEmpty
  | c :: cs => pat.isPrefixOf (c :: cs) || containsSub pat cs

/-- Python `needle in hay` on strings. -/
def strIn (needle hay : String) : Bool :=
  containsSub needle.toList hay.toList

/-- ASCII lower-casing of one character, as Python `str.lower` acts on the
ASCII inputs considered here. -/
def lowerChar (c : Char) : Char :=
  if 'A' ≤ c ∧ c ≤ 'Z' then Char.ofNat (c.toNat + 32) else c

/-- Python `s.lower()` (ASCII). -/
def strLower (s : String) : String :=
  String.mk (s.toList.map lowerChar)

/-- Python `email.split("@")[-1]`: the characters after the last `@`, the
whole string when no `@` occurs. -/
def afterLastAt (cs : List Char) : List Char :=
  (cs.reverse.takeWhile (fun c => !(c == '@'))).reverse

/-- Python `"www." in`-free removal: `s.replace("www.", "")`, scanning left to
right and removing each non-overlapping occurrence of `www.`. -/
def removeWWW : List Char → List Char
  | 'w' :: 'w' :: 'w' :: '.' :: rest => removeWWW rest
  | c :: cs => c :: removeWWW cs
  | [] => []

/-- Value of a digit run, as Python `int` on the matched group. -/
def digitsToNat (ds : List Char) : Nat :=
  ds.foldl (fun n c => 10 * n + (c.toNat - 48)) 0

/-- Python regex `\s` (ASCII): space, tab, newline, carriage return,
vertical tab, form feed. -/
def isSpaceChar (c : Char) : Bool :=
  c = ' ' || c = '\t' || c = '\n' || c = '\r' || c = Char.ofNat 11 || c = Char.ofNat 12

/-! ## `get_domain` (src/app.py lines 86-90)

`urlparse(url).netloc.replace("www.", "")` inside `try/except: return ""`.
`netlocOf` follows CPython's `urlsplit`: strip a leading `scheme:` when the
text before the first colon is a valid scheme (first character an ASCII
letter, the rest letters/digits/`+`/`-`/`.`), then read a network location
only after a leading `//`, up to the first `/`, `?` or `#`.  (CPython's
removal of embedded tab/CR/LF control characters is not modelled; all inputs
considered here are free of them, and for such inputs the raised-exception
branch of `get_domain` is unreachable.)  Note the Python code calls
`str.replace`, which removes **every** occurrence of `"www."`, not only a
leading one. -/

def schemeChar (c : Char) : Bool :=
  c.isAlphanum || c = '+' || c = '-' || c = '.'

def dropScheme (cs : List Char) : List Char :=
  match cs.findIdx? (fun c => c == ':') with
  | some i =>
    if 0 < i ∧ (cs.headD ' ').isAlpha ∧ (cs.take i).all schemeChar then
      cs.drop (i + 1)
    else cs
  | none => cs

def netlocOf (url : String) : String :=
  match dropScheme url.toList with
  | '/' :: '/' :: rest =>
    String.mk (rest.takeWhile (fun c => !(c == '/' || c == '?' || c == '#')))
  | _ => ""

def get_domain (url : String) : String :=
  String.mk (removeWWW (netlocOf url).toList)

/-! ## `is_company_email`, `is_valid_phone` (src/app.py lines 92-101) -/

def FREE_EMAIL_DOMAINS : List String :=
  ["gmail.com", "yahoo.com", "outlook.com", "hotmail.com", "aol.com", "icloud.com"]

/-- `is_company_email(email, website)`.  The Python function returns
`domain and domain in email_domain`: when `domain` is the empty string the
returned value is the falsy `""`, modelled here as `false`. -/
def is_company_email (email website : String) : Bool :=
  let domain := get_domain website
  let emailDomain := strLower (String.mk (afterLastAt email.toList))
  if emailDomain ∈ FREE_EMAIL_DOMAINS then false
  else !(domain == "") && strIn domain emailDomain

/-- `is_valid_phone(phone)`: `re.sub(r"\D", "", phone)` keeps exactly the
digit characters; accept when 10-15 digits remain. -/
def is_valid_phone (phone : String) : Bool :=
  let digits := phone.toList.filter Char.isDigit
  10 ≤ digits.length && digits.length ≤ 15

/-! ## `re.search(r"Lead Score:\s*(\d+)", analysis)` (src/app.py lines 439-440)

`re.search` scans the string left to right and reports the first position at
which the whole pattern matches; the captured group is the maximal digit run
(`\d+` is greedy, and giving digits back can never help because the literal
`employees`/end-of-pattern context that follows starts with a non-digit). -/

def leadScoreLit : List Char := "Lead Score:".toList

def tryLeadScoreAt (cs : List Char) : Option Nat :=
  if leadScoreLit.isPrefixOf cs then
    let rest := (cs.drop leadScoreLit.length).dropWhile isSpaceChar
    let ds := rest.takeWhile Char.isDigit
    if ds.isEmpty then none else some (digitsToNat ds)
  else none

def searchLeadScore : List Char → Option Nat
  | [] => none
  | c :: cs =>
    match tryLeadScoreAt (c :: cs) with
    | some n => some n
    | none => searchLeadScore cs

/-- `ai_score = int(score_match.group(1)) if score_match else 5`. -/
def parse_ai_score (analysis : String) : Nat :=
  (searchLeadScore analysis.toList).getD 5

/-! ## `extract_company_size` (src/app.py lines 119-138)

First the regex `(\d+)\+?\s*employees` is searched on the lower-cased text;
a successful match is bucketed by the employee count.  (`\d+` backtracking is
moot: with fewer digits the next pattern element would have to match a digit,
which `\+?`, `\s` and the literal `employees` cannot, so the greedy run is
the only candidate at each position; likewise an unconsumed `+` can never be
matched by `\s*employees`.)  Otherwise the keyword lists are tried in dict
insertion order: enterprise, medium, small. -/

def tryEmployeesAt (cs : List Char) : Option Nat :=
  let ds := cs.takeWhile Char.isDigit
  if ds.isEmpty then none
  else
    let rest := cs.drop ds.length
    let rest := match rest with
      | '+' :: r => r
      | r => r
    let rest := rest.dropWhile isSpaceChar
    if ("employees".toList).isPrefixOf rest then some (digitsToNat ds) else none

def findEmployees : List Char → Option Nat
  | [] => none
  | c :: cs =>
    match tryEmployeesAt (c :: cs) with
    | some n => some n
    | none => findEmployees cs

def extract_company_size (text : String) : String :=
  let t := strLower text
  match findEmployees t.toList with
  | some count =>
    if count > 500 then "Enterprise (500+)"
    else if count > 50 then "Medium (50-500)"
    else "Small (1-50)"
  | none =>
    if ["fortune 500", "global", "worldwide", "international"].any (fun k => strIn k t) then
      "Enterprise"
    else if ["team of", "employees", "staff members"].any (fun k => strIn k t) then
      "Medium"
    else if ["family owned", "local", "boutique"].any (fun k => strIn k t) then
      "Small"
    else "Unknown"

/-! ## External signal fetchers (src/app.py lines 103-257)

Each fetcher is a function of the response of the external call it makes.
`Except.error ()` stands for a raised transport/parse exception
(`requests.get` failure, timeout, `res.json()` decode error); `Except.ok`
carries the parsed payload.  A fetcher whose Python body is wrapped in
`try/except` is a total function into its result type; `search_businesses`
and `get_linkedin_info` have **no** handler in the source, so any exception
propagates to the caller: they return `Except`. -/

structure OrganicResult where
  title : String
  link : String
  snippet : String
  deriving DecidableEq, Repr

/-- `verify_email_hunter` (lines 103-117).  The response is `error` for a
raised exception, `ok none` when the parsed JSON has no truthy `"data"`
field, and `ok (some (status, score))` for the reported status string and
numeric score (the `.get` defaults `"unknown"` / `0` are folded into the
payload; the numeric score is modelled as `Nat`, the only value the claims
touch being `0`). -/
def verify_email_hunter (hasKey : Bool) (resp : Except Unit (Option (String × Nat))) :
    String × Nat :=
  if !hasKey then ("Not Verified", 0)
  else
    match resp with
    | .error _ => ("Not Verified", 0)
    | .ok none => ("Not Verified", 0)
    | .ok (some sv) => sv

/-- Loop body of `check_buying_signals` (lines 172-180). -/
def signalsFold (acc : List String) (r : OrganicResult) : List String :=
  let s := strLower r.snippet
  let t := strLower r.title
  let acc := if strIn "hiring" s || strIn "hiring" t then acc ++ ["Currently Hiring"] else acc
  let acc := if strIn "funding" s || strIn "funding" t then acc ++ ["Recently Funded"] else acc
  if strIn "expansion" s || strIn "expansion" t then acc ++ ["Expanding"] else acc

/-- `check_buying_signals` (lines 160-183): whole body inside `try/except`,
so on a raised exception the accumulated `signals` is still `[]` and the
function returns `"None"`. -/
def check_buying_signals : Except Unit (List OrganicResult) → String
  | .error _ => "None"
  | .ok results =>
    let signals := results.foldl signalsFold []
    if signals.isEmpty then "None" else String.intercalate ", " signals

/-- Loop body of `get_social_presence` (lines 197-204): `if/elif` chain,
first occurrence per channel wins. -/
def socialFold (s : String × String × String) (r : OrganicResult) :
    String × String × String :=
  if strIn "linkedin.com/company" r.link && s.1 == "" then (r.link, s.2.1, s.2.2)
  else if strIn "twitter.com" r.link && s.2.1 == "" then (s.1, r.link, s.2.2)
  else if strIn "facebook.com" r.link && s.2.2 == "" then (s.1, s.2.1, r.link)
  else s

/-- `get_social_presence` (lines 185-207): `try/except` around the body,
default `{"LinkedIn": "", "Twitter": "", "Facebook": ""}` survives failure. -/
def get_social_presence : Except Unit (List OrganicResult) → String × String × String
  | .error _ => ("", "", "")
  | .ok results => results.foldl socialFold ("", "", "")

def founderKeywords : List String := ["founder", "ceo", "co-founder", "owner"]

/-- Line 253: `"linkedin.com/company" in link`. -/
def isCompanyPageLink (r : OrganicResult) : Bool :=
  strIn "linkedin.com/company" r.link

/-- Line 255: `any(k in title.lower() for k in [...])`. -/
def isFounderTitle (r : OrganicResult) : Bool :=
  founderKeywords.any (fun k => strIn k (strLower r.title))

/-- Loop body of `get_linkedin_info` (lines 250-256): both `if`s assign
unconditionally on a match, so the **last** matching result wins. -/
def linkedinFold (p : String × String) (r : OrganicResult) : String × String :=
  (if isCompanyPageLink r then r.link else p.1,
   if isFounderTitle r then r.title else p.2)

/-- `get_linkedin_info` (lines 238-257): **no** `try/except` in the source;
a raised exception from `requests.get`/`res.json()` propagates. -/
def get_linkedin_info : Except Unit (List OrganicResult) → Except Unit (String × String)
  | .error e => .error e
  | .ok results => .ok (results.foldl linkedinFold ("", ""))

/-- `search_businesses` (lines 209-223): **no** `try/except`; pages are
fetched in order and `data.get("organic_results", [])` concatenated; an
exception on any page aborts the whole function (partial results are lost). -/
def search_businesses : List (Except Unit (List OrganicResult)) →
    Except Unit (List OrganicResult)
  | [] => .ok []
  | r :: rs =>
    match r with
    | .error e => .error e
    | .ok page =>
      match search_businesses rs with
      | .error e => .error e
      | .ok rest => .ok (page ++ rest)

/-! ## `scrape_website` (src/app.py lines 225-236) and the missing import

The import list of the program (src/app.py lines 1-11) binds exactly these
names; `BeautifulSoup` is **not** among them, so the call
`BeautifulSoup(res.text, "html.parser")` at line 228 raises `NameError` on
every invocation, the bare `except:` catches it, and the function returns
`([], [], "", "Unknown", "None")` regardless of the HTTP response. -/

def importedNames : List String :=
  ["streamlit", "pandas", "requests", "re", "BytesIO", "urlparse", "datetime",
   "json", "ChatGroq", "PromptTemplate"]

def beautifulSoupImported : Bool := importedNames.contains "BeautifulSoup"

/-- `scrape_website(url)`: because `beautifulSoupImported = false`, the
`try` block always raises `NameError` at line 228, before any email/phone/
size/tech extraction can run, and the `except` fallback of line 236 is the
returned value for every response — transport failure or not.  (The
extraction code of lines 229-234 is unreachable and therefore not part of
the function's behaviour.) -/
def scrape_website (_resp : Except Unit String) :
    List String × List String × String × String × String :=
  ([], [], "", "Unknown", "None")

/-! ## The "Generate Enhanced Leads" loop (src/app.py lines 376-478)

The loop walks the ordered search results, keeping two pieces of state: the
collected `leads` and the `seen_domains` set (modelled as the list of domains
added so far; Python set membership = list membership).  Every external call
made inside one iteration is represented by its result, bundled with the
candidate into an `Item`:
- `emails, phones, pageText, companySize, techStack` — the tuple returned by
  `scrape_website(website)` at line 412;
- `verifyResp` — the Hunter response for the selected email (line 421);
- `linkedin, founder` — the pair returned by `get_linkedin_info` (line 423,
  the call completing normally);
- `buying` — the string returned by `check_buying_signals` (line 424);
- `socialLinkedIn/Twitter/Facebook` — from `get_social_presence` (line 425);
- `analysis, emailVariations, followUps, multichannel` — the language-model
  outputs (lines 438, 453-455);
- `generatedDate` — the `datetime.now()` timestamp string (line 477). -/

def BLOCKED_DOMAINS : List String :=
  ["yelp", "clutch", "justdial", "indiamart", "yellowpages", "facebook.com",
   "instagram.com", "twitter.com"]

deriving instance DecidableEq for Except

structure Config where
  maxLeads : Nat
  minScore : Nat
  excluded : List String
  meetingLink : String
  hasHunterKey : Bool
  deriving DecidableEq, Repr

structure Item where
  title : String
  link : String
  emails : List String
  phones : List String
  pageText : String
  companySize : String
  techStack : String
  verifyResp : Except Unit (Option (String × Nat))
  linkedin : String
  founder : String
  buying : String
  socialLinkedIn : String
  socialTwitter : String
  socialFacebook : String
  analysis : String
  emailVariations : String
  followUps : String
  multichannel : String
  generatedDate : String
  deriving DecidableEq, Repr

structure Lead where
  company : String
  website : String
  email : String
  emailStatus : String
  emailScore : Nat
  phone : String
  companySize : String
  techStack : String
  linkedin : String
  twitter : String
  facebook : String
  keyContact : String
  buyingSignals : String
  leadScore : Nat
  leadAnalysis : String
  emailVariations : String
  followUps : String
  multichannel : String
  meetingLink : String
  generatedDate : String
  deriving DecidableEq, Repr

/-- Line 413: `next((e for e in emails if is_company_email(e, website)), "")`. -/
def selectEmail (emails : List String) (website : String) : String :=
  (emails.find? (fun e => is_company_email e website)).getD ""

/-- Line 414: `next((p for p in phones if is_valid_phone(p)), "")`. -/
def selectPhone (phones : List String) : String :=
  (phones.find? is_valid_phone).getD ""

/-- Lines 442-448: the hybrid score.  `hasEmail`, `hasPhone`, `hasSignals`,
`hasLinkedin` are the truthiness of `valid_email`, `valid_phone`,
`buying_signals != "None"` and `linkedin`. -/
def lead_score (hasEmail hasPhone hasSignals hasLinkedin : Bool) (aiScore : Nat) : Nat :=
  let hybrid := (if hasEmail then 2 else 0) + (if hasPhone then 2 else 0)
    + (if hasSignals then 2 else 0) + (if hasLinkedin then 1 else 0)
    + min aiScore 3
  min hybrid 10

/-- The score computed for one candidate (lines 439-448). -/
def itemLeadScore (it : Item) : Nat :=
  lead_score (!(selectEmail it.emails it.link == "")) (!(selectPhone it.phones == ""))
    (!(it.buying == "None")) (!(it.linkedin == "")) (parse_ai_score it.analysis)

/-- The record appended to `leads` (lines 418-421 and 457-478). -/
def mkLead (cfg : Config) (it : Item) : Lead :=
  let validEmail := selectEmail it.emails it.link
  let validPhone := selectPhone it.phones
  let statusScore :=
    if validEmail ≠ "" ∧ cfg.hasHunterKey = true then
      verify_email_hunter cfg.hasHunterKey it.verifyResp
    else ("Not Verified", 0)
  { company := it.title
    website := it.link
    email := validEmail
    emailStatus := statusScore.1
    emailScore := statusScore.2
    phone := validPhone
    companySize := it.companySize
    techStack := it.techStack
    linkedin := if it.linkedin ≠ "" then it.linkedin else it.socialLinkedIn
    twitter := it.socialTwitter
    facebook := it.socialFacebook
    keyContact := it.founder
    buyingSignals := it.buying
    leadScore := itemLeadScore it
    leadAnalysis := it.analysis
    emailVariations := it.emailVariations
    followUps := it.followUps
    multichannel := it.multichannel
    meetingLink := cfg.meetingLink
    generatedDate := it.generatedDate }

structure PState where
  leads : List Lead
  seen : List String
  deriving DecidableEq, Repr

/-- One iteration of the `for idx, r in enumerate(results)` loop
(lines 391-478).  `break` at the cap is modelled by making every further
iteration a no-op, which leaves the same final state. -/
def step (cfg : Config) (st : PState) (it : Item) : PState :=
  if cfg.maxLeads ≤ st.leads.length then st
  else if get_domain it.link = "" ∨ get_domain it.link ∈ st.seen then st
  else if BLOCKED_DOMAINS.any (fun b => strIn b (strLower it.link)) = true then st
  else if get_domain it.link ∈ cfg.excluded then st
  else if selectEmail it.emails it.link = "" ∧ selectPhone it.phones = "" then
    ⟨st.leads, get_domain it.link :: st.seen⟩
  else if itemLeadScore it < cfg.minScore then
    ⟨st.leads, get_domain it.link :: st.seen⟩
  else
    ⟨st.leads ++ [mkLead cfg it], get_domain it.link :: st.seen⟩

def runFrom (cfg : Config) (st : PState) (items : List Item) : PState :=
  items.foldl (step cfg) st

/-- State after processing a prefix of the candidate list, starting from
`leads = []`, `seen_domains = set()` (lines 377-378). -/
def runState (cfg : Config) (items : List Item) : PState :=
  runFrom cfg ⟨[], []⟩ items

/-- The final `leads` list of one run. -/
def generateLeads (cfg : Config) (items : List Item) : List Lead :=
  (runState cfg items).leads

/-- The domain a lead is deduplicated by (derived from its website). -/
def leadDomain (l : Lead) : String := get_domain l.website

/-! ## Concrete scenarios

Closed inputs used by the witnesses and counterexamples below. -/

/-- An `Item` with the given candidate fields and neutral external results. -/
def plainItem (title link : String) (emails phones : List String)
    (buying linkedin analysis : String) : Item :=
  { title := title, link := link, emails := emails, phones := phones,
    pageText := "", companySize := "Unknown", techStack := "None",
    verifyResp := Except.error (), linkedin := linkedin, founder := "",
    buying := buying, socialLinkedIn := "", socialTwitter := "",
    socialFacebook := "", analysis := analysis, emailVariations := "EMAIL A: hi",
    followUps := "FOLLOW-UP 1: hi", multichannel := "WhatsApp: hi",
    generatedDate := "2026-10-12 00:00:00" }

def cfgW : Config := ⟨5, 1, [], "https://calendly.com/me/meeting", false⟩

/-- Qualifying candidate: company email present, parsed AI score 9. -/
def itemAcme : Item :=
  plainItem "Acme" "https://acme.com" ["info@acme.com"] [] "None" "" "Lead Score: 9"

/-- Second candidate resolving to the same domain as `itemAcme`. -/
def itemAcme2 : Item :=
  plainItem "Acme Inc" "https://www.acme.com/about" ["x@acme.com"] [] "None" "" "Lead Score: 9"

def itemBravo : Item :=
  plainItem "Bravo" "https://bravo.com" [] ["+1 555-123-4567"] "Currently Hiring"
    "https://linkedin.com/company/bravo" "no score line"

/-- Candidate that passes the dedup/blocklist checks but has no contact. -/
def itemGated : Item :=
  plainItem "Gated" "https://gated.com" [] [] "None" "" "Lead Score: 9"

/-- Later candidate with the same domain as `itemGated`. -/
def itemGated2 : Item :=
  plainItem "Gated Two" "https://www.gated.com/contact" ["info@gated.com"] [] "None" "" "Lead Score: 9"

/-- The C1 end-to-end scenario: page text of the single search result. -/
def sweetCrumbsText : String :=
  "Welcome to Sweet Crumbs bakery in Austin. Reach us at contact@sweetcrumbs.com. We are 50 employees strong."

def sweetCrumbsCfg : Config := ⟨1, 1, [], "https://calendly.com/me/meeting", false⟩

/-- The tuple `scrape_website` actually returns for the scenario page. -/
def sweetCrumbsScrape : List String × List String × String × String × String :=
  scrape_website (Except.ok sweetCrumbsText)

/-- The candidate item for the scenario, carrying the actual scrape output. -/
def sweetCrumbsItem : Item :=
  { title := "Sweet Crumbs", link := "https://sweetcrumbs.com",
    emails := sweetCrumbsScrape.1, phones := sweetCrumbsScrape.2.1,
    pageText := sweetCrumbsScrape.2.2.1, companySize := sweetCrumbsScrape.2.2.2.1,
    techStack := sweetCrumbsScrape.2.2.2.2,
    verifyResp := Except.error (), linkedin := "", founder := "",
    buying := "None", socialLinkedIn := "", socialTwitter := "",
    socialFacebook := "", analysis := "Lead Score: 8", emailVariations := "EMAIL A: hi",
    followUps := "FOLLOW-UP 1: hi", multichannel := "WhatsApp: hi",
    generatedDate := "2026-10-12 00:00:00" }

/-- Two results whose links both contain `linkedin.com/company` and whose
titles both carry a founder keyword. -/
def resultFirst : OrganicResult :=
  ⟨"Alice - Founder at First", "https://linkedin.com/company/first", ""⟩

def resultSecond : OrganicResult :=
  ⟨"Bob - CEO at Second", "https://linkedin.com/company/second", ""⟩

/-- `ys` is a possible value of Python's `list(set(xs))`: duplicate-free and
holding exactly the elements of `xs`, in an order the runtime chooses (string
hashing is salted per process, so the order is not stable across runs). -/
def isSetEnumeration (xs ys : List String) : Prop :=
  ys.Nodup ∧ (∀ e ∈ ys, e ∈ xs) ∧ (∀ e ∈ xs, e ∈ ys)

instance (xs ys : List String) : Decidable (isSetEnumeration xs ys) := by
  unfold isSetEnumeration
  infer_instance

/-! ## Loop lemmas -/

theorem leadDomain_mkLead (cfg : Config) (it : Item) :
    leadDomain (mkLead cfg it) = get_domain it.link := rfl

theorem step_seen_subset (cfg : Config) (st : PState) (it : Item) :
    st.seen ⊆ (step cfg st it).seen := by
  unfold step
  split_ifs <;> first
    | exact fun _ h => h
    | exact fun _ h => List.mem_cons_of_mem _ h

theorem runFrom_seen_subset (cfg : Config) :
    ∀ (items : List Item) (st : PState), st.seen ⊆ (runFrom cfg st items).seen
  | [], _ => fun _ h => h
  | it :: items, st => fun _ h =>
    runFrom_seen_subset cfg items (step cfg st it) (step_seen_subset cfg st it h)

theorem step_leads_mono {cfg : Config} {st : PState} {it : Item} {l : Lead}
    (h : l ∈ st.leads) : l ∈ (step cfg st it).leads := by
  unfold step
  split_ifs <;> first | exact h | exact List.mem_append_left _ h

theorem runFrom_leads_mono {cfg : Config} {l : Lead} :
    ∀ (items : List Item) (st : PState), l ∈ st.leads → l ∈ (runFrom cfg st items).leads
  | [], _, h => h
  | it :: items, st, h =>
    runFrom_leads_mono items (step cfg st it) (step_leads_mono h)

/-- A lead present after one iteration is either an old lead or the lead of
this candidate, and in the latter case the candidate's domain was fresh. -/
theorem mem_step_leads {cfg : Config} {st : PState} {it : Item} {l : Lead}
    (h : l ∈ (step cfg st it).leads) :
    l ∈ st.leads ∨
      (l = mkLead cfg it ∧ get_domain it.link ∉ st.seen ∧ get_domain it.link ≠ "") := by
  unfold step at h
  split_ifs at h with h1 h2 h3 h4 h5 h6
  · exact Or.inl h
  · exact Or.inl h
  · exact Or.inl h
  · exact Or.inl h
  · exact Or.inl h
  · exact Or.inl h
  · rcases List.mem_append.mp h with h' | h'
    · exact Or.inl h'
    · exact Or.inr ⟨List.mem_singleton.mp h', fun hc => h2 (Or.inr hc), fun hc => h2 (Or.inl hc)⟩

/-- Once a domain is in `seen_domains` and no collected lead carries it, no
lead with that domain is ever produced. -/
theorem runFrom_no_new_domain {cfg : Config} {d : String} :
    ∀ (items : List Item) (st : PState), d ∈ st.seen →
      (∀ l ∈ st.leads, leadDomain l ≠ d) →
      ∀ l ∈ (runFrom cfg st items).leads, leadDomain l ≠ d
  | [], _, _, hold => hold
  | it :: items, st, hseen, hold => by
    refine runFrom_no_new_domain items (step cfg st it)
      (step_seen_subset cfg st it hseen) ?_
    intro l hl
    rcases mem_step_leads hl with h | ⟨rfl, hnot, _⟩
    · exact hold l h
    · rw [leadDomain_mkLead]
      intro hc
      exact hnot (hc ▸ hseen)

/-- Loop invariant: every collected lead's domain is in `seen_domains`. -/
def DomInv (st : PState) : Prop := ∀ l ∈ st.leads, leadDomain l ∈ st.seen

theorem step_DomInv {cfg : Config} {st : PState} {it : Item} (h : DomInv st) :
    DomInv (step cfg st it) := by
  unfold step
  split_ifs
  · exact h
  · exact h
  · exact h
  · exact h
  · exact fun l hl => List.mem_cons_of_mem _ (h l hl)
  · exact fun l hl => List.mem_cons_of_mem _ (h l hl)
  · intro l hl
    rcases List.mem_append.mp hl with h' | h'
    · exact List.mem_cons_of_mem _ (h l h')
    · rw [List.mem_singleton.mp h', leadDomain_mkLead]
      exact List.mem_cons_self _ _

theorem runFrom_DomInv {cfg : Config} :
    ∀ (items : List Item) (st : PState), DomInv st → DomInv (runFrom cfg st items)
  | [], _, h => h
  | it :: items, st, h => runFrom_DomInv items (step cfg st it) (step_DomInv h)

theorem DomInv_runState (cfg : Config) (items : List Item) :
    DomInv (runState cfg items) :=
  runFrom_DomInv items ⟨[], []⟩ (fun l h => absurd h (List.not_mem_nil l))

theorem step_nodup {cfg : Config} {st : PState} {it : Item} (hinv : DomInv st)
    (hnd : (st.leads.map leadDomain).Nodup) :
    ((step cfg st it).leads.map leadDomain).Nodup := by
  unfold step
  split_ifs with h1 h2 h3 h4 h5 h6
  · exact hnd
  · exact hnd
  · exact hnd
  · exact hnd
  · exact hnd
  · exact hnd
  · show ((st.leads ++ [mkLead cfg it]).map leadDomain).Nodup
    rw [List.map_append]
    refine List.Nodup.append hnd (List.nodup_singleton _) ?_
    intro x hx hx'
    rcases List.mem_map.mp hx with ⟨l, hl, rfl⟩
    have hxd : leadDomain l = get_domain it.link := by
      simpa [leadDomain_mkLead] using hx'
    exact h2 (Or.inr (hxd ▸ hinv l hl))

theorem runFrom_nodup {cfg : Config} :
    ∀ (items : List Item) (st : PState), DomInv st →
      ((st.leads.map leadDomain)).Nodup →
      (((runFrom cfg st items).leads.map leadDomain)).Nodup
  | [], _, _, hnd => hnd
  | it :: items, st, hinv, hnd =>
    runFrom_nodup items (step cfg st it) (step_DomInv hinv) (step_nodup hinv hnd)

/-- A candidate whose domain is already in `seen_domains` leaves the loop
state unchanged. -/
theorem step_skip_seen {cfg : Config} {st : PState} {it : Item}
    (h : get_domain it.link ∈ st.seen) : step cfg st it = st := by
  unfold step
  split_ifs with h1 h2 <;> first | rfl | exact absurd (Or.inr h) h2

theorem runFrom_append (cfg : Config) (st : PState) (l1 l2 : List Item) :
    runFrom cfg st (l1 ++ l2) = runFrom cfg (runFrom cfg st l1) l2 :=
  List.foldl_append _ _ _ _

theorem runFrom_cons (cfg : Config) (st : PState) (c : Item) (items : List Item) :
    runFrom cfg st (c :: items) = runFrom cfg (step cfg st c) items := rfl

/-! ## Claims -/

/-- C2: the hybrid score equals
`min(10, 2*[email] + 2*[phone] + 2*[signal] + 1*[linkedin] + min(aiScore, 3))`,
where `aiScore` is parsed from the analysis text via `Lead Score:\s*(\d+)`
and defaults to 5 when the pattern is absent; for every combination of the
four boolean signals and every `aiScore` in `[0, 100]` the result is an
integer in `[0, 10]`. -/
theorem c2_hybrid_score_formula :
    (∀ (a b c d : Bool) (ai : Nat), ai ≤ 100 →
       lead_score a b c d ai =
         min 10 ((if a then 2 else 0) + (if b then 2 else 0) + (if c then 2 else 0)
           + (if d then 1 else 0) + min ai 3) ∧
       lead_score a b c d ai ≤ 10) ∧
    (∀ s : String, searchLeadScore s.toList = none → parse_ai_score s = 5) := by
  constructor
  · intro a b c d ai _
    refine ⟨Nat.min_comm _ _ , Nat.min_le_right _ _⟩
  · intro s h
    unfold parse_ai_score
    rw [h]
    rfl

theorem c2_hybrid_score_formula_witness :
    lead_score true true true true 7 ≤ 10 ∧ parse_ai_score "Lead Quality: Hot" = 5 :=
  ⟨(c2_hybrid_score_formula.1 true true true true 7 (by decide)).2,
   c2_hybrid_score_formula.2 "Lead Quality: Hot" (by rfl)⟩

/-- C5: within one run the domains of the produced leads are pairwise
distinct, and a candidate whose domain was already recorded by an earlier
candidate contributes nothing to the run (first-seen wins). -/
theorem c5_domain_dedup :
    (∀ (cfg : Config) (items : List Item),
       ((generateLeads cfg items).map leadDomain).Nodup) ∧
    (∀ (cfg : Config) (pre : List Item) (c : Item) (post : List Item),
       get_domain c.link ∈ (runState cfg pre).seen →
       generateLeads cfg (pre ++ c :: post) = generateLeads cfg (pre ++ post)) := by
  constructor
  · intro cfg items
    exact runFrom_nodup items ⟨[], []⟩
      (fun l h => absurd h (List.not_mem_nil l)) (by simp)
  · intro cfg pre c post h
    have h1 : generateLeads cfg (pre ++ c :: post)
        = (runFrom cfg (step cfg (runState cfg pre) c) post).leads := by
      unfold generateLeads runState
      rw [runFrom_append, runFrom_cons]
    have h2 : generateLeads cfg (pre ++ post)
        = (runFrom cfg (runState cfg pre) post).leads := by
      unfold generateLeads runState
      rw [runFrom_append]
    rw [h1, h2, step_skip_seen h]

theorem c5_domain_dedup_witness :
    generateLeads cfgW [itemAcme, itemAcme2, itemBravo]
      = generateLeads cfgW [itemAcme, itemBravo] :=
  c5_domain_dedup.2 cfgW [itemAcme] itemAcme2 [itemBravo] (by decide)

/-- C4: a candidate that reaches the scoring step (all earlier gates pass)
is excluded from the final output when its hybrid score is strictly below
the configured minimum — no lead with its domain appears at all — and is
included when its score is greater than or equal to the minimum (equality
included). -/
theorem c4_min_score_filter (cfg : Config) (pre : List Item) (c : Item) (post : List Item)
    (hcap : (runState cfg pre).leads.length < cfg.maxLeads)
    (hdom : get_domain c.link ≠ "")
    (hseen : get_domain c.link ∉ (runState cfg pre).seen)
    (hblock : BLOCKED_DOMAINS.any (fun b => strIn b (strLower c.link)) = false)
    (hexcl : get_domain c.link ∉ cfg.excluded)
    (hcontact : ¬(selectEmail c.emails c.link = "" ∧ selectPhone c.phones = "")) :
    (itemLeadScore c < cfg.minScore →
       ∀ l ∈ generateLeads cfg (pre ++ c :: post), leadDomain l ≠ get_domain c.link) ∧
    (cfg.minScore ≤ itemLeadScore c →
       mkLead cfg c ∈ generateLeads cfg (pre ++ c :: post)) := by
  have hnotor : ¬(get_domain c.link = "" ∨ get_domain c.link ∈ (runState cfg pre).seen) := by
    rintro (h | h)
    exacts [hdom h, hseen h]
  have hblock' : ¬(BLOCKED_DOMAINS.any (fun b => strIn b (strLower c.link)) = true) := by
    simp [hblock]
  have hglead : generateLeads cfg (pre ++ c :: post)
      = (runFrom cfg (step cfg (runState cfg pre) c) post).leads := by
    unfold generateLeads runState
    rw [runFrom_append, runFrom_cons]
  have hold : ∀ l ∈ (runState cfg pre).leads, leadDomain l ≠ get_domain c.link := by
    intro l hl hc
    exact hseen (hc ▸ DomInv_runState cfg pre l hl)
  constructor
  · intro hscore l hl
    have hstep : step cfg (runState cfg pre) c
        = ⟨(runState cfg pre).leads, get_domain c.link :: (runState cfg pre).seen⟩ := by
      unfold step
      rw [if_neg (not_le.mpr hcap), if_neg hnotor, if_neg hblock', if_neg hexcl,
        if_neg hcontact, if_pos hscore]
    rw [hglead, hstep] at hl
    exact runFrom_no_new_domain post
      ⟨(runState cfg pre).leads, get_domain c.link :: (runState cfg pre).seen⟩
      (List.mem_cons_self _ _) hold l hl
  · intro hscore
    have hstep : step cfg (runState cfg pre) c
        = ⟨(runState cfg pre).leads ++ [mkLead cfg c],
            get_domain c.link :: (runState cfg pre).seen⟩ := by
      unfold step
      rw [if_neg (not_le.mpr hcap), if_neg hnotor, if_neg hblock', if_neg hexcl,
        if_neg hcontact, if_neg (not_lt.mpr hscore)]
    rw [hglead, hstep]
    exact runFrom_leads_mono post _
      (List.mem_append_right _ (List.mem_singleton_self _))

theorem c4_min_score_filter_witness :
    mkLead cfgW itemAcme ∈ generateLeads cfgW [itemAcme] :=
  (c4_min_score_filter cfgW [] itemAcme [] (by decide) (by decide) (by decide)
    (by decide) (by decide) (by decide)).2 (by decide)

/-- C10: the candidate's domain enters `seen_domains` before the contact
gate runs, so when a candidate passes the cap, domain, blocklist and
exclusion checks but is rejected for having neither email nor phone, the
domain is recorded with no lead appended, every later candidate with the
same domain leaves the state unchanged, and the run produces no lead at all
for that domain. -/
theorem c10_seen_before_contact_gate (cfg : Config) (pre : List Item) (c1 : Item)
    (mid : List Item) (c2 : Item) (post : List Item)
    (hd2 : get_domain c2.link = get_domain c1.link)
    (hcap : (runState cfg pre).leads.length < cfg.maxLeads)
    (hdom : get_domain c1.link ≠ "")
    (hseen : get_domain c1.link ∉ (runState cfg pre).seen)
    (hblock : BLOCKED_DOMAINS.any (fun b => strIn b (strLower c1.link)) = false)
    (hexcl : get_domain c1.link ∉ cfg.excluded)
    (hgate : selectEmail c1.emails c1.link = "" ∧ selectPhone c1.phones = "") :
    step cfg (runState cfg pre) c1
      = ⟨(runState cfg pre).leads, get_domain c1.link :: (runState cfg pre).seen⟩ ∧
    step cfg (runState cfg (pre ++ c1 :: mid)) c2 = runState cfg (pre ++ c1 :: mid) ∧
    ∀ l ∈ generateLeads cfg (pre ++ c1 :: (mid ++ c2 :: post)),
      leadDomain l ≠ get_domain c1.link := by
  have hnotor : ¬(get_domain c1.link = "" ∨ get_domain c1.link ∈ (runState cfg pre).seen) := by
    rintro (h | h)
    exacts [hdom h, hseen h]
  have hblock' : ¬(BLOCKED_DOMAINS.any (fun b => strIn b (strLower c1.link)) = true) := by
    simp [hblock]
  have hstep : step cfg (runState cfg pre) c1
      = ⟨(runState cfg pre).leads, get_domain c1.link :: (runState cfg pre).seen⟩ := by
    unfold step
    rw [if_neg (not_le.mpr hcap), if_neg hnotor, if_neg hblock', if_neg hexcl,
      if_pos hgate]
  have hmid : runState cfg (pre ++ c1 :: mid)
      = runFrom cfg (step cfg (runState cfg pre) c1) mid := by
    unfold runState
    rw [runFrom_append, runFrom_cons]
  have hseenMid : get_domain c1.link ∈ (runState cfg (pre ++ c1 :: mid)).seen := by
    rw [hmid, hstep]
    exact runFrom_seen_subset cfg mid _ (List.mem_cons_self _ _)
  refine ⟨hstep, step_skip_seen (hd2 ▸ hseenMid), ?_⟩
  intro l hl
  have hglead : generateLeads cfg (pre ++ c1 :: (mid ++ c2 :: post))
      = (runFrom cfg (step cfg (runState cfg pre) c1) (mid ++ c2 :: post)).leads := by
    unfold generateLeads runState
    rw [runFrom_append, runFrom_cons]
  have hold : ∀ l' ∈ (runState cfg pre).leads, leadDomain l' ≠ get_domain c1.link := by
    intro l' hl' hc
    exact hseen (hc ▸ DomInv_runState cfg pre l' hl')
  rw [hglead, hstep] at hl
  exact runFrom_no_new_domain (mid ++ c2 :: post)
    ⟨(runState cfg pre).leads, get_domain c1.link :: (runState cfg pre).seen⟩
    (List.mem_cons_self _ _) hold l hl

theorem c10_seen_before_contact_gate_witness :
    step cfgW (runState cfgW [itemGated]) itemGated2 = runState cfgW [itemGated] :=
  (c10_seen_before_contact_gate cfgW [] itemGated [] itemGated2 [] (by decide)
    (by decide) (by decide) (by decide) (by decide) (by decide) (by decide)).2.1

theorem foldl_linkedinFold_fst :
    ∀ (results : List OrganicResult) (acc : String × String),
      (results.foldl linkedinFold acc).1
        = ((results.reverse.find? isCompanyPageLink).map (fun r => r.link)).getD acc.1
  | [], _ => rfl
  | x :: xs, acc => by
    show (xs.foldl linkedinFold (linkedinFold acc x)).1 = _
    rw [foldl_linkedinFold_fst xs (linkedinFold acc x), List.reverse_cons,
      List.find?_append]
    cases hx : xs.reverse.find? isCompanyPageLink with
    | some r => simp
    | none =>
      by_cases hpx : isCompanyPageLink x
      · simp [hpx, linkedinFold]
      · simp [hpx, linkedinFold]

theorem foldl_linkedinFold_snd :
    ∀ (results : List OrganicResult) (acc : String × String),
      (results.foldl linkedinFold acc).2
        = ((results.reverse.find? isFounderTitle).map (fun r => r.title)).getD acc.2
  | [], _ => rfl
  | x :: xs, acc => by
    show (xs.foldl linkedinFold (linkedinFold acc x)).2 = _
    rw [foldl_linkedinFold_snd xs (linkedinFold acc x), List.reverse_cons,
      List.find?_append]
    cases hx : xs.reverse.find? isFounderTitle with
    | some r => simp
    | none =>
      by_cases hpx : isFounderTitle x
      · simp [hpx, linkedinFold]
      · simp [hpx, linkedinFold]

/-- C6 counterexample: with two results whose links both contain
`linkedin.com/company` and whose titles both carry a founder keyword,
`get_linkedin_info` returns the **second** (last) result's link and title,
not the first's, refuting the claim's "first result" reading. -/
theorem c6_counterexample :
    get_linkedin_info (Except.ok [resultFirst, resultSecond])
        = Except.ok ("https://linkedin.com/company/second", "Bob - CEO at Second") ∧
    get_linkedin_info (Except.ok [resultFirst, resultSecond])
        ≠ Except.ok ("https://linkedin.com/company/first", "Alice - Founder at First") := by
  constructor <;> decide

/-- C6 (amended): `get_linkedin_info` returns the **last** result link
containing `linkedin.com/company` and the **last** result title containing a
founder keyword (empty string when no result matches). -/
theorem c6_last_match (results : List OrganicResult) :
    get_linkedin_info (Except.ok results)
      = Except.ok
          (((results.reverse.find? isCompanyPageLink).map (fun r => r.link)).getD "",
           ((results.reverse.find? isFounderTitle).map (fun r => r.title)).getD "") := by
  have h1 := foldl_linkedinFold_fst results ("", "")
  have h2 := foldl_linkedinFold_snd results ("", "")
  unfold get_linkedin_info
  rw [← h1, ← h2]

/-- C7 counterexample: an interior `www.` is **not** preserved —
`get_domain` removes every occurrence of the substring `"www."`, because the
Python code calls `str.replace`, refuting the "only a leading www."
reading. -/
theorem c7_counterexample :
    get_domain "https://foo.www.example.com/x" = "foo.example.com" ∧
    get_domain "https://foo.www.example.com/x" ≠ "foo.www.example.com" := by
  constructor <;> decide

theorem removeWWW_id (cs : List Char)
    (h : containsSub ['w', 'w', 'w', '.'] cs = false) : removeWWW cs = cs := by
  induction cs with
  | nil => rfl
  | cons c cs ih =>
    have hsplit : List.isPrefixOf ['w', 'w', 'w', '.'] (c :: cs) = false
        ∧ containsSub ['w', 'w', 'w', '.'] cs = false := by
      have h' := h
      unfold containsSub at h'
      exact Bool.or_eq_false_iff.mp h'
    rw [removeWWW.eq_def]
    split
    · rename_i x rest heq
      exfalso
      rw [heq] at hsplit
      have ht : List.isPrefixOf ['w', 'w', 'w', '.'] ('w' :: 'w' :: 'w' :: '.' :: rest) = true := by
        simp [List.isPrefixOf]
      rw [ht] at hsplit
      exact absurd hsplit.1 (by simp)
    · rename_i x c' cs' hne heq
      injection heq with h1 h2
      subst h1
      subst h2
      rw [ih hsplit.2]
    · rename_i x heq
      exact absurd heq (by simp)

/-- C7 (amended): `get_domain` removes **every** occurrence of `"www."`
from the URL's network location (leading or interior), returns the netloc
unchanged when `"www."` does not occur in it, the empty string on input with
no network location, and satisfies the spec's two examples. -/
theorem c7_amended :
    (∀ s : List Char, removeWWW ('w' :: 'w' :: 'w' :: '.' :: s) = removeWWW s) ∧
    (∀ url : String, containsSub ['w', 'w', 'w', '.'] (netlocOf url).toList = false →
        get_domain url = netlocOf url) ∧
    get_domain "https://www.example.com/x" = "example.com" ∧
    get_domain "not a url" = "" ∧
    get_domain "https://foo.www.example.com/x" = "foo.example.com" := by
  refine ⟨fun s => rfl, fun url h => ?_, by decide, by decide, by decide⟩
  show String.mk (removeWWW (netlocOf url).toList) = netlocOf url
  rw [removeWWW_id _ h]
  rfl

theorem c7_amended_witness :
    get_domain "https://example.org/a" = netlocOf "https://example.org/a" :=
  c7_amended.2.1 "https://example.org/a" (by decide)

/-- C8 counterexample: for a website with an empty domain the website's
domain (the empty string) **is** a substring of the email's non-free domain,
so the claim's "true iff substring" reading demands `true`, but the code
returns a falsy value. -/
theorem c8_counterexample :
    get_domain "not a url" = "" ∧
    strLower (String.mk (afterLastAt "a@acme.com".toList)) = "acme.com" ∧
    "acme.com" ∉ FREE_EMAIL_DOMAINS ∧
    strIn (get_domain "not a url") "acme.com" = true ∧
    is_company_email "a@acme.com" "not a url" = false := by
  exact ⟨by decide, by decide, by decide, by decide, by decide⟩

/-- C8 (amended): `is_company_email` is false when the email's domain is a
free-mail provider, and otherwise true iff the website's domain is
**non-empty** and a substring of the email's (lower-cased) domain; the three
spec examples hold. -/
theorem c8_amended :
    (∀ email website : String,
        is_company_email email website = true ↔
          (strLower (String.mk (afterLastAt email.toList)) ∉ FREE_EMAIL_DOMAINS ∧
           get_domain website ≠ "" ∧
           strIn (get_domain website)
             (strLower (String.mk (afterLastAt email.toList))) = true)) ∧
    is_company_email "a@gmail.com" "https://acme.com" = false ∧
    is_company_email "a@acme.com" "https://acme.com" = true ∧
    is_company_email "a@sub.acme.com" "https://acme.com" = true := by
  refine ⟨fun email website => ?_, by decide, by decide, by decide⟩
  unfold is_company_email
  dsimp only
  split_ifs with hmem
  · simp only [hmem]
    simp
  · simp [hmem, Bool.and_eq_true]
    exact fun _ _ => hmem

theorem getD_find?_eq_empty_iff (p : String → Bool) (xs ys : List String)
    (h : isSetEnumeration xs ys) (hne : "" ∉ xs) :
    ((ys.find? p).getD "" = "") ↔ (∀ e ∈ xs, ¬ p e) := by
  cases hfind : ys.find? p with
  | none =>
    simp only [Option.getD_none]
    constructor
    · intro _ e he
      exact (List.find?_eq_none.mp hfind) e (h.2.2 e he)
    · intro _
      trivial
  | some a =>
    simp only [Option.getD_some]
    have hpa := List.find?_some hfind
    have ha : a ∈ xs := h.2.1 a (List.mem_of_find?_eq_some hfind)
    constructor
    · intro hae
      exact absurd (hae ▸ ha) hne
    · intro hall
      exact absurd hpa (hall a ha)

/-- C9 counterexample: two orders in which Python may enumerate the same
two-element set of scraped emails (`list(set(...))` is order-unstable across
processes) make the loop select different email strings, refuting "which
email is selected is identical between the two runs". -/
theorem c9_counterexample :
    isSetEnumeration ["a@acme.com", "b@acme.com"] ["a@acme.com", "b@acme.com"] ∧
    isSetEnumeration ["a@acme.com", "b@acme.com"] ["b@acme.com", "a@acme.com"] ∧
    selectEmail ["a@acme.com", "b@acme.com"] "https://acme.com"
      ≠ selectEmail ["b@acme.com", "a@acme.com"] "https://acme.com" := by
  exact ⟨by decide, by decide, by decide⟩

/-- C9 (amended): with identical external responses the qualification
decision (some company email / valid phone exists) and the hybrid score are
identical across runs, whatever enumeration order `list(set(...))` produces;
only the selected email/phone *string* may differ. -/
theorem c9_qualification_order_invariant
    (xsE ys1 ys2 xsP ps1 ps2 : List String) (w buying linkedin : String) (ai : Nat)
    (hE1 : isSetEnumeration xsE ys1) (hE2 : isSetEnumeration xsE ys2)
    (hEne : "" ∉ xsE)
    (hP1 : isSetEnumeration xsP ps1) (hP2 : isSetEnumeration xsP ps2)
    (hPne : "" ∉ xsP) :
    ((selectEmail ys1 w = "" ∧ selectPhone ps1 = "") ↔
      (selectEmail ys2 w = "" ∧ selectPhone ps2 = "")) ∧
    lead_score (!(selectEmail ys1 w == "")) (!(selectPhone ps1 == ""))
        (!(buying == "None")) (!(linkedin == "")) ai
      = lead_score (!(selectEmail ys2 w == "")) (!(selectPhone ps2 == ""))
          (!(buying == "None")) (!(linkedin == "")) ai := by
  have hE : (selectEmail ys1 w = "") ↔ (selectEmail ys2 w = "") := by
    unfold selectEmail
    rw [getD_find?_eq_empty_iff _ xsE ys1 hE1 hEne,
      getD_find?_eq_empty_iff _ xsE ys2 hE2 hEne]
  have hP : (selectPhone ps1 = "") ↔ (selectPhone ps2 = "") := by
    unfold selectPhone
    rw [getD_find?_eq_empty_iff _ xsP ps1 hP1 hPne,
      getD_find?_eq_empty_iff _ xsP ps2 hP2 hPne]
  have hbE : (selectEmail ys1 w == "") = (selectEmail ys2 w == "") := by
    rw [Bool.eq_iff_iff]
    simpa using hE
  have hbP : (selectPhone ps1 == "") = (selectPhone ps2 == "") := by
    rw [Bool.eq_iff_iff]
    simpa using hP
  exact ⟨and_congr hE hP, by rw [hbE, hbP]⟩

theorem c9_qualification_order_invariant_witness :
    lead_score (!(selectEmail ["a@acme.com", "b@acme.com"] "https://acme.com" == ""))
        (!(selectPhone ([] : List String) == "")) (!("None" == "None")) (!("" == "")) 5
      = lead_score (!(selectEmail ["b@acme.com", "a@acme.com"] "https://acme.com" == ""))
          (!(selectPhone ([] : List String) == "")) (!("None" == "None")) (!("" == "")) 5 :=
  (c9_qualification_order_invariant ["a@acme.com", "b@acme.com"]
    ["a@acme.com", "b@acme.com"] ["b@acme.com", "a@acme.com"] [] [] []
    "https://acme.com" "None" "" 5 (by decide) (by decide) (by decide)
    (by decide) (by decide) (by decide)).2

/-- C3 counterexample: `get_linkedin_info` has no exception handler, so on a
transport/parse failure it propagates the exception instead of returning the
documented default `("", "")`; the loop calls it without a handler at
line 423, so the exception escapes per-candidate processing.
`search_businesses` likewise propagates a failure on its first page. -/
theorem c3_counterexample :
    get_linkedin_info (Except.error ()) = Except.error () ∧
    get_linkedin_info (Except.error ()) ≠ Except.ok ("", "") ∧
    search_businesses [Except.error ()] = Except.error () := by
  exact ⟨rfl, by decide, rfl⟩

/-- C3 (amended): `check_buying_signals`, `get_social_presence`,
`verify_email_hunter` and `scrape_website` return their documented defaults
on any failed call and never raise, but `search_businesses` and
`get_linkedin_info` have no handler and propagate the exception to the
caller. -/
theorem c3_fetcher_failure_behaviour :
    (∀ e : Unit, check_buying_signals (Except.error e) = "None") ∧
    (∀ e : Unit, get_social_presence (Except.error e) = ("", "", "")) ∧
    (∀ (k : Bool) (e : Unit), verify_email_hunter k (Except.error e) = ("Not Verified", 0)) ∧
    (∀ r : Except Unit String, scrape_website r = ([], [], "", "Unknown", "None")) ∧
    (∀ e : Unit, get_linkedin_info (Except.error e) = Except.error e) ∧
    (∀ (e : Unit) (rs : List (Except Unit (List OrganicResult))),
        search_businesses (Except.error e :: rs) = Except.error e) := by
  refine ⟨fun _ => rfl, fun _ => rfl, fun k _ => ?_, fun _ => rfl, fun _ => rfl,
    fun _ _ => rfl⟩
  cases k <;> rfl

/-- C1: the end-to-end scenario cannot produce the expected lead, because
`BeautifulSoup` is absent from the program's imports: `scrape_website`
always falls into its bare `except` and returns no emails, no phones and
size `"Unknown"`, so the contact gate rejects the Sweet Crumbs candidate
and the run yields zero leads — even though the page text contains the
email and `"50 employees"`, and the intended extraction
(`extract_company_size`, `is_company_email`) would have produced
`"Small (1-50)"` and accepted `contact@sweetcrumbs.com`. -/
theorem c1_beautifulsoup_missing :
    beautifulSoupImported = false ∧
    scrape_website (Except.ok sweetCrumbsText) = ([], [], "", "Unknown", "None") ∧
    strIn "contact@sweetcrumbs.com" sweetCrumbsText = true ∧
    strIn "50 employees" sweetCrumbsText = true ∧
    extract_company_size sweetCrumbsText = "Small (1-50)" ∧
    is_company_email "contact@sweetcrumbs.com" "https://sweetcrumbs.com" = true ∧
    generateLeads sweetCrumbsCfg [sweetCrumbsItem] = [] := by
  exact ⟨rfl, rfl, by decide, by decide, by decide, by decide, by decide⟩

end LeadGen
